import Mathlib

/-!
Shallow embedding of the mcpgw Intent Broker core
(`src/mcpgw/core/intent_contract.py` and `src/mcpgw/core/intent_broker.py`).

Timestamps are modelled as integers (minutes); `datetime.utcnow()` is an
explicit `now` argument.  Python dictionaries are modelled as association
lists with dictionary-assignment semantics (`assocPut` overwrites in place
when the key is present, otherwise appends, matching insertion-ordered
Python dicts).  The Semantic Analyzer is an external oracle: each operation
receives its (already typed) response as an `Except` value, `Except.error`
standing for a raised/failed analyzer call.  Generated UUIDs are passed in
as explicit arguments.
-/

/-- Association list lookup: first entry whose key matches (Python `dict.get`). -/
def assocGet {α : Type} (l : List (String × α)) (k : String) : Option α :=
  match l with
  | [] => none
  | p :: rest => if p.1 = k then some p.2 else assocGet rest k

/-- Key membership test (Python `k in dict`). -/
def hasKey {α : Type} (l : List (String × α)) (k : String) : Bool :=
  match l with
  | [] => false
  | p :: rest => decide (p.1 = k) || hasKey rest k

/-- Dictionary assignment `dict[k] = v`: overwrite in place when present,
append otherwise (insertion-ordered, like a Python dict). -/
def assocPut {α : Type} (l : List (String × α)) (k : String) (v : α) : List (String × α) :=
  if hasKey l k then l.map (fun p => if p.1 = k then (k, v) else p) else l ++ [(k, v)]

/-- Status of intent compatibility analysis (`IntentCompatibilityStatus`). -/
inductive IntentCompatibilityStatus where
  | compatible
  | incompatible
  | requires_negotiation
  | analysis_failed
deriving DecidableEq

/-- Result of intent validation for a transaction (`IntentValidationResult`). -/
inductive IntentValidationResult where
  | valid
  | invalid
  | suspicious
  | drift_detected
deriving DecidableEq

/-- Opaque request/response payload (free-form key/value map). -/
abbrev ReqData := List (String × String)

/-- `ClientIntentDeclaration` dataclass. -/
structure ClientIntentDeclaration where
  purpose : String
  data_requirements : List String
  constraints : List String
  duration : Option Nat
  context : List (String × String)
  client_id : String
  declared_at : Int
deriving DecidableEq

/-- `ServerCapabilityDeclaration` dataclass. -/
structure ServerCapabilityDeclaration where
  provides : List String
  boundaries : List String
  rate_limits : List (String × Nat)
  data_sensitivity : String
  supported_operations : List String
  server_id : String
  registered_at : Int
deriving DecidableEq

/-- `IntentCompatibilityResult` dataclass. -/
structure IntentCompatibilityResult where
  status : IntentCompatibilityStatus
  confidence_score : Rat
  compatibility_reasons : List String
  suggested_constraints : List String
  risk_assessment : List (String × String)
  analysis_metadata : List (String × String)
deriving DecidableEq

/-- `IntentContract` dataclass. -/
structure IntentContract where
  contract_id : String
  client_intent : Option ClientIntentDeclaration
  server_capability : Option ServerCapabilityDeclaration
  compatibility_result : Option IntentCompatibilityResult
  agreed_purpose : String
  allowed_operations : List String
  data_access_scope : List String
  constraints : List String
  rate_limits : List (String × Nat)
  created_at : Int
  expires_at : Option Int
  is_active : Bool
  violation_count : Nat
  last_validated : Option Int
  transaction_count : Nat
  successful_transactions : Nat
  failed_transactions : Nat
deriving DecidableEq

/-- `IntentContract.__post_init__`: set `expires_at = created_at + duration`
(minutes) when the client intent carries a (truthy, i.e. nonzero) duration. -/
def contractPostInit (c : IntentContract) : IntentContract :=
  match c.client_intent with
  | none => c
  | some ci =>
    match ci.duration with
    | none => c
    | some d => if d ≠ 0 then { c with expires_at := some (c.created_at + (d : Int)) } else c

/-- `IntentContract.is_expired`: `utcnow() > expires_at`. -/
def IntentContract.is_expired (c : IntentContract) (now : Int) : Bool :=
  match c.expires_at with
  | none => false
  | some e => decide (e < now)

/-- `IntentContract.record_transaction`. -/
def IntentContract.record_transaction (c : IntentContract) (success : Bool) (now : Int) :
    IntentContract :=
  let c1 := { c with transaction_count := c.transaction_count + 1 }
  let c2 :=
    if success then { c1 with successful_transactions := c1.successful_transactions + 1 }
    else { c1 with failed_transactions := c1.failed_transactions + 1 }
  { c2 with last_validated := some now }

/-- `IntentContract.record_violation`: increment; deactivate at the fixed
threshold of 5. -/
def IntentContract.record_violation (c : IntentContract) : IntentContract :=
  let c1 := { c with violation_count := c.violation_count + 1 }
  if 5 ≤ c1.violation_count then { c1 with is_active := false } else c1

/-- `ServerResponseValidation` dataclass. -/
structure ServerResponseValidation where
  contract_id : String
  transaction_id : String
  validation_result : IntentValidationResult
  confidence_score : Rat
  validation_reasons : List String
  data_compliance_score : Rat
  privacy_violations : List String
  data_leakage_risks : List String
  unexpected_data : List String
  suggested_action : String
  validated_at : Int
deriving DecidableEq

/-- `IntentTransactionValidation` dataclass. -/
structure IntentTransactionValidation where
  contract_id : String
  transaction_id : String
  validation_result : IntentValidationResult
  confidence_score : Rat
  validation_reasons : List String
  intent_alignment_score : Rat
  risk_factors : List String
  suggested_action : String
  validated_at : Int
  client_protection : Option ServerResponseValidation
  server_protection : Bool
deriving DecidableEq

/-- One entry of the per-contract transaction ledger
(the dict built in `IntentBroker.validate_transaction`). -/
structure TransactionRecord where
  transaction_id : String
  timestamp : Int
  request : ReqData
  response : Option ReqData
  validation_result : IntentValidationResult
  intent_alignment_score : Rat
deriving DecidableEq

/-- Typed form of the drift-analysis dictionary returned by
`IntentBroker.analyze_intent_drift` (and by the analyzer's drift oracle). -/
structure DriftResult where
  drift_detected : Bool
  drift_severity : String
  drift_indicators : List String
  recommended_action : String
  confidence_score : Rat
  message : Option String
  error_text : Option String
deriving DecidableEq

/-- `IntentBroker.negotiation_stats`. -/
structure BrokerStats where
  total_negotiations : Nat
  successful_contracts : Nat
  failed_negotiations : Nat
  active_contracts : Nat
deriving DecidableEq

/-- Mutable state of an `IntentBroker`. -/
structure IntentBroker where
  client_intents : List (String × ClientIntentDeclaration)
  server_capabilities : List (String × ServerCapabilityDeclaration)
  active_contracts : List (String × IntentContract)
  client_sessions : List (String × String)
  contract_transactions : List (String × List TransactionRecord)
  negotiation_stats : BrokerStats
deriving DecidableEq

/-- `IntentBroker.declare_client_intent` (the generated uuid is the `intent_id`
argument). -/
def declare_client_intent (b : IntentBroker) (intent_id : String)
    (intent : ClientIntentDeclaration) : IntentBroker × String :=
  ({ b with client_intents := assocPut b.client_intents intent_id intent }, intent_id)

/-- `IntentBroker.register_server_capability`. -/
def register_server_capability (b : IntentBroker) (capability_id : String)
    (capability : ServerCapabilityDeclaration) : IntentBroker × String :=
  ({ b with server_capabilities := assocPut b.server_capabilities capability_id capability },
   capability_id)

/-- `IntentBroker.negotiate_intent_contract`.  The compatibility oracle call is
passed in as an `Except` value; `Except.error e` models the analyzer raising,
which the source converts into an inactive `FAILED:` contract.  A missing
handle raises `ValueError` (modelled as the `Except.error` in the second
component); note the source increments `total_negotiations` before the
lookups. -/
def negotiate_intent_contract (b : IntentBroker)
    (client_intent_id server_capability_id : String)
    (additional_constraints : Option (List String)) (newContractId : String) (now : Int)
    (oracle : Except String IntentCompatibilityResult) :
    IntentBroker × Except String IntentContract :=
  let stats0 := { b.negotiation_stats with
                    total_negotiations := b.negotiation_stats.total_negotiations + 1 }
  let b0 := { b with negotiation_stats := stats0 }
  match assocGet b0.client_intents client_intent_id with
  | none => (b0, Except.error ("Client intent not found: " ++ client_intent_id))
  | some client_intent =>
    match assocGet b0.server_capabilities server_capability_id with
    | none => (b0, Except.error ("Server capability not found: " ++ server_capability_id))
    | some server_capability =>
      match oracle with
      | Except.error e =>
        let failed_contract := contractPostInit
          { contract_id := newContractId
            client_intent := some client_intent
            server_capability := some server_capability
            compatibility_result := none
            agreed_purpose := "FAILED: " ++ e
            allowed_operations := []
            data_access_scope := []
            constraints := []
            rate_limits := []
            created_at := now
            expires_at := none
            is_active := false
            violation_count := 0
            last_validated := none
            transaction_count := 0
            successful_transactions := 0
            failed_transactions := 0 }
        ({ b0 with
             negotiation_stats :=
               { stats0 with failed_negotiations := stats0.failed_negotiations + 1 },
             active_contracts :=
               assocPut b0.active_contracts failed_contract.contract_id failed_contract },
         Except.ok failed_contract)
      | Except.ok compatibility_result =>
        let base := contractPostInit
          { contract_id := newContractId
            client_intent := some client_intent
            server_capability := some server_capability
            compatibility_result := some compatibility_result
            agreed_purpose := ""
            allowed_operations := []
            data_access_scope := []
            constraints := []
            rate_limits := []
            created_at := now
            expires_at := none
            is_active := true
            violation_count := 0
            last_validated := none
            transaction_count := 0
            successful_transactions := 0
            failed_transactions := 0 }
        let contract :=
          match compatibility_result.status with
          | IntentCompatibilityStatus.compatible =>
            { base with
                is_active := true
                agreed_purpose := client_intent.purpose
                allowed_operations := server_capability.supported_operations
                data_access_scope := client_intent.data_requirements
                constraints := client_intent.constraints
                               ++ compatibility_result.suggested_constraints
                               ++ additional_constraints.getD []
                rate_limits := server_capability.rate_limits }
          | IntentCompatibilityStatus.requires_negotiation =>
            { base with is_active := false
                        agreed_purpose := "PENDING: " ++ client_intent.purpose }
          | _ =>
            { base with is_active := false
                        agreed_purpose := "REJECTED: " ++ client_intent.purpose }
        let stats1 :=
          match compatibility_result.status with
          | IntentCompatibilityStatus.compatible =>
            { stats0 with successful_contracts := stats0.successful_contracts + 1 }
          | IntentCompatibilityStatus.requires_negotiation => stats0
          | _ => { stats0 with failed_negotiations := stats0.failed_negotiations + 1 }
        -- the `if contract.is_active:` block in the source touches only the
        -- session map and the active-contract counter
        ({ b0 with
             active_contracts := assocPut b0.active_contracts contract.contract_id contract
             contract_transactions := assocPut b0.contract_transactions contract.contract_id []
             client_sessions :=
               if contract.is_active then
                 assocPut b0.client_sessions client_intent.client_id contract.contract_id
               else b0.client_sessions
             negotiation_stats :=
               if contract.is_active then
                 { stats1 with active_contracts := stats1.active_contracts + 1 }
               else stats1 },
         Except.ok contract)

/-- `IntentBroker.validate_transaction` (server-protection path).  The analyzer
verdict arrives as `Except.ok v`; `Except.error e` models the analyzer raising,
handled by the source's `except` block (counters and violation recorded, no
ledger append, fallback `invalid` verdict). -/
def validate_transaction (b : IntentBroker) (contract_id : String)
    (request_data : ReqData) (response_data : Option ReqData) (now : Int) (txId : String)
    (oracle : Except String IntentTransactionValidation) :
    IntentBroker × IntentTransactionValidation :=
  match assocGet b.active_contracts contract_id with
  | none =>
    (b, { contract_id := contract_id
          transaction_id := txId
          validation_result := IntentValidationResult.invalid
          confidence_score := 0
          validation_reasons := ["Contract not found"]
          intent_alignment_score := 0
          risk_factors := ["unknown_contract"]
          suggested_action := "deny"
          validated_at := now
          client_protection := none
          server_protection := true })
  | some contract =>
    if contract.is_active = false then
      (b, { contract_id := contract_id
            transaction_id := txId
            validation_result := IntentValidationResult.invalid
            confidence_score := 0
            validation_reasons := ["Contract is not active"]
            intent_alignment_score := 0
            risk_factors := ["inactive_contract"]
            suggested_action := "deny"
            validated_at := now
            client_protection := none
            server_protection := true })
    else if contract.is_expired now then
      ({ b with active_contracts :=
           assocPut b.active_contracts contract_id { contract with is_active := false } },
       { contract_id := contract_id
         transaction_id := txId
         validation_result := IntentValidationResult.invalid
         confidence_score := 0
         validation_reasons := ["Contract has expired"]
         intent_alignment_score := 0
         risk_factors := ["expired_contract"]
         suggested_action := "deny"
         validated_at := now
         client_protection := none
         server_protection := true })
    else
      match oracle with
      | Except.ok v =>
        let validation := { v with contract_id := contract_id, transaction_id := txId }
        let success := decide (validation.validation_result = IntentValidationResult.valid)
        let contract1 := contract.record_transaction success now
        let contract2 := if success then contract1 else contract1.record_violation
        let transaction_record : TransactionRecord :=
          { transaction_id := txId
            timestamp := now
            request := request_data
            response := response_data
            validation_result := validation.validation_result
            intent_alignment_score := validation.intent_alignment_score }
        let txs0 := (assocGet b.contract_transactions contract_id).getD []
                      ++ [transaction_record]
        let txs1 := if 100 < txs0.length then txs0.drop (txs0.length - 100) else txs0
        ({ b with
             active_contracts := assocPut b.active_contracts contract_id contract2
             contract_transactions := assocPut b.contract_transactions contract_id txs1 },
         validation)
      | Except.error e =>
        let contract2 := (contract.record_transaction false now).record_violation
        ({ b with active_contracts := assocPut b.active_contracts contract_id contract2 },
         { contract_id := contract_id
           transaction_id := txId
           validation_result := IntentValidationResult.invalid
           confidence_score := 0
           validation_reasons := ["Validation failed: " ++ e]
           intent_alignment_score := 0
           risk_factors := ["validation_error"]
           suggested_action := "deny"
           validated_at := now
           client_protection := none
           server_protection := true })

/-- `IntentBroker.validate_server_response` (client-protection path): read-only
with respect to the broker state, so only the verdict is returned. -/
def validate_server_response (b : IntentBroker) (contract_id transaction_id : String)
    (_request_data _response_data : ReqData) (now : Int)
    (oracle : Except String ServerResponseValidation) : ServerResponseValidation :=
  match assocGet b.active_contracts contract_id with
  | none =>
    { contract_id := contract_id
      transaction_id := transaction_id
      validation_result := IntentValidationResult.invalid
      confidence_score := 0
      validation_reasons := ["Contract not found"]
      data_compliance_score := 0
      privacy_violations := ["unknown_contract"]
      data_leakage_risks := ["contract_not_found"]
      unexpected_data := []
      suggested_action := "deny"
      validated_at := now }
  | some _contract =>
    match oracle with
    | Except.ok rv => { rv with contract_id := contract_id, transaction_id := transaction_id }
    | Except.error e =>
      { contract_id := contract_id
        transaction_id := transaction_id
        validation_result := IntentValidationResult.invalid
        confidence_score := 0
        validation_reasons := ["Response validation failed: " ++ e]
        data_compliance_score := 0
        privacy_violations := ["validation_error"]
        data_leakage_risks := ["analysis_failed"]
        unexpected_data := []
        suggested_action := "deny"
        validated_at := now }

/-- `IntentBroker.validate_bidirectional_transaction`.  `txIdOuter` models the
uuid generated at the top of the method (used for the response validation),
`txIdInner` the one generated inside `validate_transaction`.  The Python guard
`if response_data:` is falsy for both `None` and `{}`. -/
def validate_bidirectional_transaction (b : IntentBroker) (contract_id : String)
    (request_data : ReqData) (response_data : Option ReqData) (now : Int)
    (txIdOuter txIdInner : String)
    (reqOracle : Except String IntentTransactionValidation)
    (respOracle : Except String ServerResponseValidation) :
    IntentBroker × IntentTransactionValidation :=
  let r := validate_transaction b contract_id request_data response_data now txIdInner reqOracle
  let b1 := r.1
  let request_validation := r.2
  if request_validation.validation_result ≠ IntentValidationResult.valid then
    (b1, request_validation)
  else
    match response_data with
    | none => (b1, request_validation)
    | some resp =>
      if resp.isEmpty then (b1, request_validation)
      else
        let response_validation :=
          validate_server_response b1 contract_id txIdOuter request_data resp now respOracle
        let rv1 := { request_validation with client_protection := some response_validation }
        if response_validation.validation_result ≠ IntentValidationResult.valid then
          (b1, { rv1 with
                   validation_result := IntentValidationResult.suspicious
                   risk_factors := rv1.risk_factors
                     ++ ["server_response_violation", "client_protection_triggered"]
                   suggested_action := response_validation.suggested_action })
        else (b1, rv1)

/-- `IntentBroker.analyze_intent_drift`.  Returns `none` for the
`{"error": "Contract not found"}` dictionary.  The trailing window is
`time_window_hours` hours (60 time units each). -/
def analyze_intent_drift (b : IntentBroker) (contract_id : String)
    (time_window_hours : Int) (now : Int) (oracle : Except String DriftResult) :
    IntentBroker × Option DriftResult :=
  match assocGet b.active_contracts contract_id with
  | none => (b, none)
  | some contract =>
    let cutoff_time := now - 60 * time_window_hours
    let recent_transactions :=
      ((assocGet b.contract_transactions contract_id).getD []).filter
        (fun tx => decide (cutoff_time < tx.timestamp))
    if recent_transactions.isEmpty then
      (b, some { drift_detected := false
                 drift_severity := "none"
                 drift_indicators := []
                 recommended_action := "continue"
                 confidence_score := 1
                 message := some "No recent transactions to analyze"
                 error_text := none })
    else
      match oracle with
      | Except.ok drift_analysis =>
        let b1 :=
          if drift_analysis.drift_detected then
            if drift_analysis.drift_severity = "high" then
              { b with active_contracts :=
                  assocPut b.active_contracts contract_id { contract with is_active := false } }
            else b
          else b
        (b1, some drift_analysis)
      | Except.error e =>
        (b, some { drift_detected := false
                   drift_severity := "unknown"
                   drift_indicators := ["Analysis failed: " ++ e]
                   recommended_action := "review"
                   confidence_score := 0
                   message := none
                   error_text := some e })

/-- `IntentBroker.get_contract_by_client`. -/
def get_contract_by_client (b : IntentBroker) (client_id : String) : Option IntentContract :=
  match assocGet b.client_sessions client_id with
  | none => none
  | some contract_id => assocGet b.active_contracts contract_id

/-- `IntentBroker.get_active_contracts`. -/
def get_active_contracts (b : IntentBroker) : List IntentContract :=
  (b.active_contracts.filter (fun p => p.2.is_active)).map Prod.snd

/-- `IntentBroker.cleanup_expired_contracts` (the sweeper): deactivate every
stored contract that is expired and still flagged active, drop the session
entries pointing at the contracts deactivated in this pass, and recompute the
active-contract counter from scratch. -/
def cleanup_expired_contracts (b : IntentBroker) (now : Int) : IntentBroker × Nat :=
  let expired_contracts :=
    (b.active_contracts.filter (fun p => p.2.is_expired now && p.2.is_active)).map Prod.fst
  let contracts1 :=
    b.active_contracts.map
      (fun p => (p.1, if p.2.is_expired now && p.2.is_active
                      then { p.2 with is_active := false } else p.2))
  let sessions1 :=
    b.client_sessions.filter
      (fun p => !(expired_contracts.any (fun cid => decide (cid = p.2))))
  let stats1 := { b.negotiation_stats with
                    active_contracts := (contracts1.filter (fun p => p.2.is_active)).length }
  ({ b with active_contracts := contracts1
            client_sessions := sessions1
            negotiation_stats := stats1 },
   expired_contracts.length)

/-- One state-changing broker operation, with its externally supplied inputs
(fresh uuids, the current wall clock, and the analyzer oracle's response). -/
inductive BrokerOp where
  | declareIntent (intent_id : String) (intent : ClientIntentDeclaration)
  | registerCapability (capability_id : String) (capability : ServerCapabilityDeclaration)
  | negotiate (client_intent_id server_capability_id : String)
      (additional_constraints : Option (List String)) (newContractId : String) (now : Int)
      (oracle : Except String IntentCompatibilityResult)
  | validate (contract_id : String) (request_data : ReqData)
      (response_data : Option ReqData) (now : Int) (txId : String)
      (oracle : Except String IntentTransactionValidation)
  | validateBidirectional (contract_id : String) (request_data : ReqData)
      (response_data : Option ReqData) (now : Int) (txIdOuter txIdInner : String)
      (reqOracle : Except String IntentTransactionValidation)
      (respOracle : Except String ServerResponseValidation)
  | analyzeDrift (contract_id : String) (time_window_hours : Int) (now : Int)
      (oracle : Except String DriftResult)
  | cleanup (now : Int)

/-- Effect of one broker operation on the broker state. -/
def applyOp (b : IntentBroker) : BrokerOp → IntentBroker
  | BrokerOp.declareIntent intent_id intent => (declare_client_intent b intent_id intent).1
  | BrokerOp.registerCapability capability_id capability =>
      (register_server_capability b capability_id capability).1
  | BrokerOp.negotiate ci sc extra newId now oracle =>
      (negotiate_intent_contract b ci sc extra newId now oracle).1
  | BrokerOp.validate cid req resp now txId oracle =>
      (validate_transaction b cid req resp now txId oracle).1
  | BrokerOp.validateBidirectional cid req resp now t1 t2 ro so =>
      (validate_bidirectional_transaction b cid req resp now t1 t2 ro so).1
  | BrokerOp.analyzeDrift cid w now oracle => (analyze_intent_drift b cid w now oracle).1
  | BrokerOp.cleanup now => (cleanup_expired_contracts b now).1

/-- Effect of a sequence of broker operations. -/
def applyOps (b : IntentBroker) (ops : List BrokerOp) : IntentBroker :=
  ops.foldl applyOp b

/-- A negotiate operation must be given a fresh (uuid) contract id. -/
def opFresh (b : IntentBroker) : BrokerOp → Bool
  | BrokerOp.negotiate _ _ _ newContractId _ _ => !(hasKey b.active_contracts newContractId)
  | _ => true

/-- All generated contract ids along an operation sequence are fresh. -/
def opsFresh : IntentBroker → List BrokerOp → Bool
  | _, [] => true
  | b, op :: rest => opFresh b op && opsFresh (applyOp b op) rest

/-- Per-contract counter invariant:
`successful_transactions + failed_transactions == transaction_count`. -/
def contractInvB (c : IntentContract) : Bool :=
  decide (c.successful_transactions + c.failed_transactions = c.transaction_count)

/-- The counter invariant holds for every stored contract. -/
def allInvB (b : IntentBroker) : Bool :=
  b.active_contracts.all (fun p => contractInvB p.2)

/-- Every per-contract ledger holds at most 100 records. -/
def allLedgerB (b : IntentBroker) : Bool :=
  b.contract_transactions.all (fun p => decide (p.2.length ≤ 100))

/-! Concrete example states, used to instantiate the theorems below. -/

/-- A sample client intent declaration. -/
def intentA : ClientIntentDeclaration :=
  { purpose := "check weather"
    data_requirements := ["weather"]
    constraints := ["read_only"]
    duration := some 60
    context := []
    client_id := "clientA"
    declared_at := 0 }

/-- A sample server capability declaration. -/
def capA : ServerCapabilityDeclaration :=
  { provides := ["weather"]
    boundaries := ["public_only"]
    rate_limits := [("requests_per_minute", 60)]
    data_sensitivity := "public"
    supported_operations := ["read"]
    server_id := "serverA"
    registered_at := 0 }

/-- A sample compatible analyzer verdict for negotiation. -/
def compatResult : IntentCompatibilityResult :=
  { status := IntentCompatibilityStatus.compatible
    confidence_score := 1
    compatibility_reasons := ["aligned"]
    suggested_constraints := []
    risk_assessment := []
    analysis_metadata := [] }

/-- A sample active contract (created at 0, expires at 60). -/
def contractA : IntentContract :=
  { contract_id := "c1"
    client_intent := some intentA
    server_capability := some capA
    compatibility_result := some compatResult
    agreed_purpose := "check weather"
    allowed_operations := ["read"]
    data_access_scope := ["weather"]
    constraints := ["read_only"]
    rate_limits := [("requests_per_minute", 60)]
    created_at := 0
    expires_at := some 60
    is_active := true
    violation_count := 0
    last_validated := none
    transaction_count := 0
    successful_transactions := 0
    failed_transactions := 0 }

/-- A sample request payload. -/
def reqA : ReqData := [("tool", "get_weather")]

/-- A sample (nonempty) response payload. -/
def respA : ReqData := [("temperature", "21C")]

/-- A sample ledger record with timestamp 5. -/
def recA : TransactionRecord :=
  { transaction_id := "t0"
    timestamp := 5
    request := reqA
    response := none
    validation_result := IntentValidationResult.valid
    intent_alignment_score := 1 }

/-- A broker holding one active contract with an empty ledger. -/
def brokerA : IntentBroker :=
  { client_intents := [("i1", intentA)]
    server_capabilities := [("s1", capA)]
    active_contracts := [("c1", contractA)]
    client_sessions := [("clientA", "c1")]
    contract_transactions := [("c1", [])]
    negotiation_stats :=
      { total_negotiations := 1
        successful_contracts := 1
        failed_negotiations := 0
        active_contracts := 1 } }

/-- The empty broker (freshly constructed). -/
def bEmpty : IntentBroker :=
  { client_intents := []
    server_capabilities := []
    active_contracts := []
    client_sessions := []
    contract_transactions := []
    negotiation_stats :=
      { total_negotiations := 0
        successful_contracts := 0
        failed_negotiations := 0
        active_contracts := 0 } }

/-- An analyzer request verdict that is valid and carries a pre-existing risk
factor. -/
def validVerdictR : IntentTransactionValidation :=
  { contract_id := ""
    transaction_id := ""
    validation_result := IntentValidationResult.valid
    confidence_score := 1
    validation_reasons := ["aligned with intent"]
    intent_alignment_score := 1
    risk_factors := ["preexisting_risk"]
    suggested_action := "allow"
    validated_at := 0
    client_protection := none
    server_protection := true }

/-- An analyzer request verdict that is invalid. -/
def invalidVerdictA : IntentTransactionValidation :=
  { contract_id := ""
    transaction_id := ""
    validation_result := IntentValidationResult.invalid
    confidence_score := 1
    validation_reasons := ["off-purpose request"]
    intent_alignment_score := 0
    risk_factors := ["scope_violation"]
    suggested_action := "deny"
    validated_at := 0
    client_protection := none
    server_protection := true }

/-- An analyzer response verdict that is not valid (client protection fires). -/
def respBad : ServerResponseValidation :=
  { contract_id := ""
    transaction_id := ""
    validation_result := IntentValidationResult.invalid
    confidence_score := 1
    validation_reasons := ["unexpected data"]
    data_compliance_score := 0
    privacy_violations := ["pv"]
    data_leakage_risks := ["dl"]
    unexpected_data := ["tracking_pixel"]
    suggested_action := "sanitize"
    validated_at := 0 }

/-- Drift oracle output: drift detected with high severity. -/
def driftHigh : DriftResult :=
  { drift_detected := true
    drift_severity := "high"
    drift_indicators := ["new purpose"]
    recommended_action := "terminate"
    confidence_score := 1
    message := none
    error_text := none }

/-- Drift oracle output: drift detected with medium severity. -/
def driftMedium : DriftResult :=
  { drift_detected := true
    drift_severity := "medium"
    drift_indicators := ["slight shift"]
    recommended_action := "monitor"
    confidence_score := 1
    message := none
    error_text := none }

/-- Drift oracle output: severity reported high but `drift_detected` false. -/
def driftHighNoDetect : DriftResult :=
  { drift_detected := false
    drift_severity := "high"
    drift_indicators := []
    recommended_action := "investigate"
    confidence_score := 1
    message := none
    error_text := none }

/-- A contract deactivated at the violation threshold (for C1). -/
def contractV5 : IntentContract :=
  { contractA with violation_count := 5, is_active := false }

/-- Broker with a deactivated threshold-violating contract (for C1). -/
def brokerV5 : IntentBroker :=
  { brokerA with active_contracts := [("c1", contractV5)] }

/-- An operation sequence exercising every kind of state change (for C1). -/
def opsC1 : List BrokerOp :=
  [BrokerOp.validate "c1" reqA none 10 "t1" (Except.ok validVerdictR),
   BrokerOp.validate "c1" reqA none 11 "t2" (Except.error "analyzer down"),
   BrokerOp.negotiate "i1" "s1" none "c2" 12 (Except.ok compatResult),
   BrokerOp.validateBidirectional "c2" reqA (some respA) 13 "t3" "t4"
     (Except.ok validVerdictR) (Except.ok respBad),
   BrokerOp.analyzeDrift "c1" 24 14 (Except.ok driftHigh),
   BrokerOp.cleanup 70,
   BrokerOp.declareIntent "i2" intentA,
   BrokerOp.registerCapability "s2" capA]

/-- Broker whose contract ledger holds one record inside the drift window. -/
def brokerDrift : IntentBroker :=
  { brokerA with contract_transactions := [("c1", [recA])] }

/-- A full 100-record ledger. -/
def ledger100 : List TransactionRecord := List.replicate 100 recA

/-- Broker whose contract ledger is exactly full (for the FIFO claim). -/
def brokerFull : IntentBroker :=
  { brokerA with contract_transactions := [("c1", ledger100)] }

/-- Broker with a session entry pointing at a contract that was already
deactivated by lazy expiry (inactive and past its expiry). -/
def brokerStaleSession : IntentBroker :=
  { brokerA with
      active_contracts := [("c1", { contractA with is_active := false })]
      client_sessions := [("clientA", "c1")] }

/-! Association-list lemmas. -/

theorem assocGet_hasKey {α : Type} {l : List (String × α)} {k : String} {v : α}
    (h : assocGet l k = some v) : hasKey l k = true := by
  induction l with
  | nil => simp [assocGet] at h
  | cons p rest ih =>
    by_cases hp : p.1 = k
    · simp [hasKey, hp]
    · simp only [assocGet, if_neg hp] at h
      simp [hasKey, hp, ih h]

theorem assocGet_mapPut {α : Type} (l : List (String × α)) (k : String) (v : α)
    (h : hasKey l k = true) :
    assocGet (l.map (fun p => if p.1 = k then (k, v) else p)) k = some v := by
  induction l with
  | nil => simp [hasKey] at h
  | cons p rest ih =>
    by_cases hp : p.1 = k
    · simp [assocGet, hp]
    · simp only [hasKey, decide_eq_true_eq, Bool.or_eq_true] at h
      rcases h with h | h
      · exact absurd h hp
      · simp [assocGet, hp, ih h]

theorem assocGet_mapPut_ne {α : Type} (l : List (String × α)) (k k' : String) (v : α)
    (hne : k' ≠ k) :
    assocGet (l.map (fun p => if p.1 = k then (k, v) else p)) k' = assocGet l k' := by
  have hkk : ¬(k = k') := fun h => hne h.symm
  induction l with
  | nil => rfl
  | cons p rest ih =>
    by_cases hp : p.1 = k
    · have hp' : ¬(p.1 = k') := by rw [hp]; exact hkk
      simp only [List.map_cons, assocGet, if_pos hp, if_neg hkk, if_neg hp', ih]
    · simp only [List.map_cons, assocGet, if_neg hp, ih]

theorem assocGet_append_single {α : Type} (l : List (String × α)) (k k' : String) (v : α)
    (hne : k' ≠ k) : assocGet (l ++ [(k, v)]) k' = assocGet l k' := by
  have hkk : ¬(k = k') := fun h => hne h.symm
  induction l with
  | nil => simp [assocGet, hkk]
  | cons p rest ih =>
    by_cases hp : p.1 = k'
    · simp [assocGet, hp]
    · simp [assocGet, hp, ih]

theorem assocGet_append_self {α : Type} (l : List (String × α)) (k : String) (v : α)
    (h : hasKey l k = false) : assocGet (l ++ [(k, v)]) k = some v := by
  induction l with
  | nil => simp [assocGet]
  | cons p rest ih =>
    simp only [hasKey, Bool.or_eq_false_iff, decide_eq_false_iff_not] at h
    simp [assocGet, h.1, ih h.2]

theorem assocGet_put_self {α : Type} (l : List (String × α)) (k : String) (v : α) :
    assocGet (assocPut l k v) k = some v := by
  unfold assocPut
  split
  case isTrue h => exact assocGet_mapPut l k v h
  case isFalse h => exact assocGet_append_self l k v (by simpa using h)

theorem assocGet_put_ne {α : Type} (l : List (String × α)) (k k' : String) (v : α)
    (hne : k' ≠ k) : assocGet (assocPut l k v) k' = assocGet l k' := by
  unfold assocPut
  split
  · exact assocGet_mapPut_ne l k k' v hne
  · exact assocGet_append_single l k k' v hne

theorem assocGet_mapVals {α : Type} (g : α → α) (l : List (String × α)) (k : String) :
    assocGet (l.map (fun p => (p.1, g p.2))) k = (assocGet l k).map g := by
  induction l with
  | nil => rfl
  | cons p rest ih =>
    by_cases hp : p.1 = k
    · simp [assocGet, hp]
    · simp [assocGet, hp, ih]

theorem all_of_get {α : Type} {Q : α → Bool} {l : List (String × α)} {k : String} {v : α}
    (hall : l.all (fun p => Q p.2) = true) (hget : assocGet l k = some v) : Q v = true := by
  induction l with
  | nil => simp [assocGet] at hget
  | cons p rest ih =>
    simp only [List.all_cons, Bool.and_eq_true] at hall
    by_cases hp : p.1 = k
    · simp only [assocGet, if_pos hp] at hget
      rw [← Option.some_inj.mp hget]
      exact hall.1
    · simp only [assocGet, if_neg hp] at hget
      exact ih hall.2 hget

theorem put_all {α : Type} (Q : α → Bool) {l : List (String × α)} {k : String} {v : α}
    (hall : l.all (fun p => Q p.2) = true) (hv : Q v = true) :
    (assocPut l k v).all (fun p => Q p.2) = true := by
  unfold assocPut
  simp only [List.all_eq_true] at hall ⊢
  split
  · intro p hp
    rcases List.mem_map.mp hp with ⟨q, hq, rfl⟩
    split
    · exact hv
    · exact hall q hq
  · intro p hp
    rcases List.mem_append.mp hp with hp | hp
    · exact hall p hp
    · rw [List.mem_singleton.mp hp]
      exact hv

theorem mapVals_all {α : Type} {Q : α → Bool} (g : α → α) {l : List (String × α)}
    (hall : l.all (fun p => Q p.2) = true) (hg : ∀ a, Q a = true → Q (g a) = true) :
    (l.map (fun p => (p.1, g p.2))).all (fun p => Q p.2) = true := by
  simp only [List.all_eq_true] at hall ⊢
  intro p hp
  rcases List.mem_map.mp hp with ⟨q, hq, rfl⟩
  exact hg q.2 (hall q hq)

/-! Contract-evolution lemmas. -/

/-- How a single broker operation may change one stored contract: the
violation count never decreases, an inactive contract never reactivates, and
the counter invariant is preserved. -/
def ContractStep (c c' : IntentContract) : Prop :=
  c.violation_count ≤ c'.violation_count ∧
  (c.is_active = false → c'.is_active = false) ∧
  (c.successful_transactions + c.failed_transactions = c.transaction_count →
    c'.successful_transactions + c'.failed_transactions = c'.transaction_count)

theorem contractStep_refl (c : IntentContract) : ContractStep c c :=
  ⟨le_refl _, id, id⟩

theorem contractStep_trans {a b c : IntentContract}
    (h1 : ContractStep a b) (h2 : ContractStep b c) : ContractStep a c :=
  ⟨le_trans h1.1 h2.1, fun h => h2.2.1 (h1.2.1 h), fun h => h2.2.2 (h1.2.2 h)⟩

theorem contractStep_record_transaction (c : IntentContract) (s : Bool) (now : Int) :
    ContractStep c (c.record_transaction s now) := by
  unfold IntentContract.record_transaction
  cases s <;> exact ⟨le_refl _, id, by intro h; simp; omega⟩

theorem contractStep_record_violation (c : IntentContract) :
    ContractStep c c.record_violation := by
  simp only [IntentContract.record_violation]
  split
  · exact ⟨Nat.le_succ _, fun _ => rfl, id⟩
  · exact ⟨Nat.le_succ _, id, id⟩

theorem contractStep_deactivate (c : IntentContract) :
    ContractStep c { c with is_active := false } :=
  ⟨le_refl _, fun _ => rfl, id⟩

theorem contractStep_validate_outcome (c : IntentContract) (s : Bool) (now : Int) :
    ContractStep c (if s then c.record_transaction s now
                    else (c.record_transaction s now).record_violation) := by
  cases s
  · exact contractStep_trans (contractStep_record_transaction c false now)
      (contractStep_record_violation _)
  · exact contractStep_record_transaction c true now

theorem contractPostInit_fields (c : IntentContract) :
    (contractPostInit c).contract_id = c.contract_id ∧
    (contractPostInit c).is_active = c.is_active ∧
    (contractPostInit c).violation_count = c.violation_count ∧
    (contractPostInit c).transaction_count = c.transaction_count ∧
    (contractPostInit c).successful_transactions = c.successful_transactions ∧
    (contractPostInit c).failed_transactions = c.failed_transactions := by
  rcases hci : c.client_intent with _ | ci
  · simp [contractPostInit, hci]
  · rcases hd : ci.duration with _ | d
    · simp [contractPostInit, hci, hd]
    · by_cases h0 : d ≠ 0
      · simp [contractPostInit, hci, hd, h0]
      · simp [contractPostInit, hci, hd, h0]

theorem validate_transaction_step (b : IntentBroker) (cid0 : String) (req : ReqData)
    (resp : Option ReqData) (now : Int) (txId : String)
    (o : Except String IntentTransactionValidation)
    {cid : String} {c : IntentContract}
    (hget : assocGet b.active_contracts cid = some c) :
    ∃ c', assocGet (validate_transaction b cid0 req resp now txId o).1.active_contracts cid
            = some c' ∧ ContractStep c c' := by
  unfold validate_transaction
  split
  · exact ⟨c, hget, contractStep_refl c⟩
  next c0 hg =>
    split
    · exact ⟨c, hget, contractStep_refl c⟩
    · split
      · -- lazy expiry branch
        by_cases hcid : cid = cid0
        · subst hcid
          rw [hget] at hg
          rw [Option.some_inj.mp hg]
          exact ⟨{ c0 with is_active := false }, assocGet_put_self _ _ _,
                 contractStep_deactivate c0⟩
        · exact ⟨c, by rw [assocGet_put_ne _ _ _ _ hcid]; exact hget, contractStep_refl c⟩
      · split
        · -- analyzer verdict returned
          by_cases hcid : cid = cid0
          · subst hcid
            rw [hget] at hg
            rw [Option.some_inj.mp hg]
            exact ⟨_, assocGet_put_self _ _ _, contractStep_validate_outcome c0 _ now⟩
          · exact ⟨c, by rw [assocGet_put_ne _ _ _ _ hcid]; exact hget, contractStep_refl c⟩
        · -- analyzer raised
          by_cases hcid : cid = cid0
          · subst hcid
            rw [hget] at hg
            rw [Option.some_inj.mp hg]
            exact ⟨_, assocGet_put_self _ _ _,
                   contractStep_trans (contractStep_record_transaction c0 false now)
                     (contractStep_record_violation _)⟩
          · exact ⟨c, by rw [assocGet_put_ne _ _ _ _ hcid]; exact hget, contractStep_refl c⟩

theorem validate_bidirectional_fst (b : IntentBroker) (cid0 : String) (req : ReqData)
    (resp : Option ReqData) (now : Int) (t1 t2 : String)
    (ro : Except String IntentTransactionValidation)
    (so : Except String ServerResponseValidation) :
    (validate_bidirectional_transaction b cid0 req resp now t1 t2 ro so).1
      = (validate_transaction b cid0 req resp now t2 ro).1 := by
  cases resp with
  | none =>
    simp only [validate_bidirectional_transaction]
    split <;> rfl
  | some r =>
    simp only [validate_bidirectional_transaction]
    split
    · rfl
    · split
      · rfl
      · split <;> rfl

theorem negotiate_step (b : IntentBroker) (ciId scId : String)
    (extra : Option (List String)) (newId : String) (now : Int)
    (o : Except String IntentCompatibilityResult)
    {cid : String} {c : IntentContract}
    (hf : hasKey b.active_contracts newId = false)
    (hget : assocGet b.active_contracts cid = some c) :
    ∃ c', assocGet (negotiate_intent_contract b ciId scId extra newId now o).1.active_contracts
            cid = some c' ∧ ContractStep c c' := by
  have hne : cid ≠ newId := fun h => by
    rw [← h] at hf
    rw [assocGet_hasKey hget] at hf
    simp at hf
  simp only [negotiate_intent_contract]
  cases hci : assocGet b.client_intents ciId with
  | none => exact ⟨c, hget, contractStep_refl c⟩
  | some client_intent =>
    cases hsc : assocGet b.server_capabilities scId with
    | none => exact ⟨c, hget, contractStep_refl c⟩
    | some server_capability =>
      cases o with
      | error e =>
        have hid := (contractPostInit_fields
          { contract_id := newId
            client_intent := some client_intent
            server_capability := some server_capability
            compatibility_result := none
            agreed_purpose := "FAILED: " ++ e
            allowed_operations := []
            data_access_scope := []
            constraints := []
            rate_limits := []
            created_at := now
            expires_at := none
            is_active := false
            violation_count := 0
            last_validated := none
            transaction_count := 0
            successful_transactions := 0
            failed_transactions := 0 }).1
        refine ⟨c, ?_, contractStep_refl c⟩
        try dsimp only
        rw [hid]
        try dsimp only
        rw [assocGet_put_ne _ _ _ _ hne]
        exact hget
      | ok compat =>
        have hid := (contractPostInit_fields
          { contract_id := newId
            client_intent := some client_intent
            server_capability := some server_capability
            compatibility_result := some compat
            agreed_purpose := ""
            allowed_operations := []
            data_access_scope := []
            constraints := []
            rate_limits := []
            created_at := now
            expires_at := none
            is_active := true
            violation_count := 0
            last_validated := none
            transaction_count := 0
            successful_transactions := 0
            failed_transactions := 0 }).1
        cases hs : compat.status <;>
          (refine ⟨c, ?_, contractStep_refl c⟩
           simp only [hs]
           try dsimp only
           rw [hid]
           try dsimp only
           rw [assocGet_put_ne _ _ _ _ hne]
           exact hget)

theorem analyze_drift_step (b : IntentBroker) (cid0 : String) (w now : Int)
    (o : Except String DriftResult)
    {cid : String} {c : IntentContract}
    (hget : assocGet b.active_contracts cid = some c) :
    ∃ c', assocGet (analyze_intent_drift b cid0 w now o).1.active_contracts cid
            = some c' ∧ ContractStep c c' := by
  simp only [analyze_intent_drift]
  cases hg : assocGet b.active_contracts cid0 with
  | none => exact ⟨c, hget, contractStep_refl c⟩
  | some c0 =>
    dsimp only
    by_cases hempty : (List.filter (fun tx => decide (now - 60 * w < tx.timestamp))
        ((assocGet b.contract_transactions cid0).getD [])).isEmpty = true
    · rw [if_pos hempty]
      exact ⟨c, hget, contractStep_refl c⟩
    · rw [if_neg hempty]
      cases o with
      | error e => exact ⟨c, hget, contractStep_refl c⟩
      | ok d =>
        dsimp only
        by_cases hd : d.drift_detected = true
        · rw [if_pos hd]
          by_cases hsev : d.drift_severity = "high"
          · rw [if_pos hsev]
            by_cases hcid : cid = cid0
            · subst hcid
              rw [hget] at hg
              rw [Option.some_inj.mp hg]
              exact ⟨{ c0 with is_active := false }, assocGet_put_self _ _ _,
                     contractStep_deactivate c0⟩
            · exact ⟨c, by rw [assocGet_put_ne _ _ _ _ hcid]; exact hget,
                     contractStep_refl c⟩
          · rw [if_neg hsev]
            exact ⟨c, hget, contractStep_refl c⟩
        · rw [if_neg hd]
          exact ⟨c, hget, contractStep_refl c⟩

theorem cleanup_step (b : IntentBroker) (now : Int)
    {cid : String} {c : IntentContract}
    (hget : assocGet b.active_contracts cid = some c) :
    ∃ c', assocGet (cleanup_expired_contracts b now).1.active_contracts cid
            = some c' ∧ ContractStep c c' := by
  refine ⟨if c.is_expired now && c.is_active then { c with is_active := false } else c,
          ?_, ?_⟩
  · have h := assocGet_mapVals (fun c2 : IntentContract =>
      if c2.is_expired now && c2.is_active then { c2 with is_active := false } else c2)
      b.active_contracts cid
    rw [hget] at h
    exact h
  · split
    · exact contractStep_deactivate c
    · exact contractStep_refl c

theorem applyOp_step (op : BrokerOp) (b : IntentBroker) {cid : String} {c : IntentContract}
    (hf : opFresh b op = true)
    (hget : assocGet b.active_contracts cid = some c) :
    ∃ c', assocGet (applyOp b op).active_contracts cid = some c' ∧ ContractStep c c' := by
  cases op with
  | declareIntent i v => exact ⟨c, hget, contractStep_refl c⟩
  | registerCapability i v => exact ⟨c, hget, contractStep_refl c⟩
  | negotiate ciId scId extra newId now o =>
    exact negotiate_step b ciId scId extra newId now o (by simpa [opFresh] using hf) hget
  | validate cid0 req resp now txId o =>
    exact validate_transaction_step b cid0 req resp now txId o hget
  | validateBidirectional cid0 req resp now t1 t2 ro so =>
    have h := validate_transaction_step b cid0 req resp now t2 ro hget
    rw [← validate_bidirectional_fst b cid0 req resp now t1 t2 ro so] at h
    exact h
  | analyzeDrift cid0 w now o => exact analyze_drift_step b cid0 w now o hget
  | cleanup now => exact cleanup_step b now hget

theorem applyOps_step (ops : List BrokerOp) (b : IntentBroker) {cid : String}
    {c : IntentContract} (hf : opsFresh b ops = true)
    (hget : assocGet b.active_contracts cid = some c) :
    ∃ c', assocGet (applyOps b ops).active_contracts cid = some c' ∧ ContractStep c c' := by
  induction ops generalizing b c with
  | nil => exact ⟨c, hget, contractStep_refl c⟩
  | cons op rest ih =>
    simp only [opsFresh, Bool.and_eq_true] at hf
    obtain ⟨c1, hget1, hstep1⟩ := applyOp_step op b hf.1 hget
    obtain ⟨c2, hget2, hstep2⟩ := ih (applyOp b op) hf.2 hget1
    exact ⟨c2, hget2, contractStep_trans hstep1 hstep2⟩

theorem contractInvB_of_step {c c' : IntentContract} (h : ContractStep c c')
    (hc : contractInvB c = true) : contractInvB c' = true := by
  simp only [contractInvB, decide_eq_true_eq] at hc ⊢
  exact h.2.2 hc

theorem trim_length_le (t : List TransactionRecord) :
    (if 100 < t.length then t.drop (t.length - 100) else t).length ≤ 100 := by
  split
  · rw [List.length_drop]; omega
  · omega

theorem validate_allInv (b : IntentBroker) (cid0 : String) (req : ReqData)
    (resp : Option ReqData) (now : Int) (txId : String)
    (o : Except String IntentTransactionValidation)
    (hall : allInvB b = true) :
    allInvB (validate_transaction b cid0 req resp now txId o).1 = true := by
  simp only [allInvB] at hall ⊢
  unfold validate_transaction
  split
  · exact hall
  next c0 hg =>
    have hc0 : contractInvB c0 = true := all_of_get hall hg
    split
    · exact hall
    · split
      · exact put_all contractInvB hall (contractInvB_of_step (contractStep_deactivate c0) hc0)
      · split
        · exact put_all contractInvB hall
            (contractInvB_of_step (contractStep_validate_outcome c0 _ now) hc0)
        · exact put_all contractInvB hall
            (contractInvB_of_step
              (contractStep_trans (contractStep_record_transaction c0 false now)
                (contractStep_record_violation _)) hc0)

theorem validate_allLedger (b : IntentBroker) (cid0 : String) (req : ReqData)
    (resp : Option ReqData) (now : Int) (txId : String)
    (o : Except String IntentTransactionValidation)
    (hall : allLedgerB b = true) :
    allLedgerB (validate_transaction b cid0 req resp now txId o).1 = true := by
  simp only [allLedgerB] at hall ⊢
  unfold validate_transaction
  split
  · exact hall
  next c0 hg =>
    split
    · exact hall
    · split
      · exact hall
      · split
        · refine put_all (fun t : List TransactionRecord => decide (t.length ≤ 100)) hall ?_
          simp only [decide_eq_true_eq]
          exact trim_length_le _
        · exact hall

theorem negotiate_allInv (b : IntentBroker) (ciId scId : String)
    (extra : Option (List String)) (newId : String) (now : Int)
    (o : Except String IntentCompatibilityResult)
    (hall : allInvB b = true) :
    allInvB (negotiate_intent_contract b ciId scId extra newId now o).1 = true := by
  simp only [allInvB] at hall ⊢
  simp only [negotiate_intent_contract]
  cases hci : assocGet b.client_intents ciId with
  | none => exact hall
  | some client_intent =>
    cases hsc : assocGet b.server_capabilities scId with
    | none => exact hall
    | some server_capability =>
      cases o with
      | error e =>
        have hc := contractPostInit_fields
          { contract_id := newId
            client_intent := some client_intent
            server_capability := some server_capability
            compatibility_result := none
            agreed_purpose := "FAILED: " ++ e
            allowed_operations := []
            data_access_scope := []
            constraints := []
            rate_limits := []
            created_at := now
            expires_at := none
            is_active := false
            violation_count := 0
            last_validated := none
            transaction_count := 0
            successful_transactions := 0
            failed_transactions := 0 }
        refine put_all contractInvB hall ?_
        simp [contractInvB, hc.2.2.2.1, hc.2.2.2.2.1, hc.2.2.2.2.2]
      | ok compat =>
        have hc := contractPostInit_fields
          { contract_id := newId
            client_intent := some client_intent
            server_capability := some server_capability
            compatibility_result := some compat
            agreed_purpose := ""
            allowed_operations := []
            data_access_scope := []
            constraints := []
            rate_limits := []
            created_at := now
            expires_at := none
            is_active := true
            violation_count := 0
            last_validated := none
            transaction_count := 0
            successful_transactions := 0
            failed_transactions := 0 }
        cases hs : compat.status <;>
          (refine put_all contractInvB hall ?_
           simp [contractInvB, hs, hc.2.2.2.1, hc.2.2.2.2.1, hc.2.2.2.2.2])

theorem negotiate_allLedger (b : IntentBroker) (ciId scId : String)
    (extra : Option (List String)) (newId : String) (now : Int)
    (o : Except String IntentCompatibilityResult)
    (hall : allLedgerB b = true) :
    allLedgerB (negotiate_intent_contract b ciId scId extra newId now o).1 = true := by
  simp only [allLedgerB] at hall ⊢
  simp only [negotiate_intent_contract]
  cases hci : assocGet b.client_intents ciId with
  | none => exact hall
  | some client_intent =>
    cases hsc : assocGet b.server_capabilities scId with
    | none => exact hall
    | some server_capability =>
      cases o with
      | error e => exact hall
      | ok compat =>
        refine put_all (fun t : List TransactionRecord => decide (t.length ≤ 100)) hall ?_
        simp

theorem analyze_drift_ledgers (b : IntentBroker) (cid0 : String) (w now : Int)
    (o : Except String DriftResult) :
    (analyze_intent_drift b cid0 w now o).1.contract_transactions
      = b.contract_transactions := by
  simp only [analyze_intent_drift]
  cases hg : assocGet b.active_contracts cid0 with
  | none => rfl
  | some c0 =>
    dsimp only
    split
    · rfl
    · cases o with
      | error e => rfl
      | ok d =>
        dsimp only
        split
        · split <;> rfl
        · rfl

theorem analyze_drift_allInv (b : IntentBroker) (cid0 : String) (w now : Int)
    (o : Except String DriftResult) (hall : allInvB b = true) :
    allInvB (analyze_intent_drift b cid0 w now o).1 = true := by
  simp only [allInvB] at hall ⊢
  simp only [analyze_intent_drift]
  cases hg : assocGet b.active_contracts cid0 with
  | none => exact hall
  | some c0 =>
    have hc0 : contractInvB c0 = true := all_of_get hall hg
    dsimp only
    split
    · exact hall
    · cases o with
      | error e => exact hall
      | ok d =>
        dsimp only
        split
        · split
          · exact put_all contractInvB hall (contractInvB_of_step (contractStep_deactivate c0) hc0)
          · exact hall
        · exact hall

theorem cleanup_allInv (b : IntentBroker) (now : Int) (hall : allInvB b = true) :
    allInvB (cleanup_expired_contracts b now).1 = true := by
  simp only [allInvB] at hall ⊢
  exact mapVals_all
    (fun c2 : IntentContract =>
      if c2.is_expired now && c2.is_active then { c2 with is_active := false } else c2)
    hall
    (fun a ha => by
      dsimp only
      split
      · exact contractInvB_of_step (contractStep_deactivate a) ha
      · exact ha)

theorem applyOp_allInv (op : BrokerOp) (b : IntentBroker)
    (hall : allInvB b = true) : allInvB (applyOp b op) = true := by
  cases op with
  | declareIntent i v => exact hall
  | registerCapability i v => exact hall
  | negotiate ciId scId extra newId now o => exact negotiate_allInv b ciId scId extra newId now o hall
  | validate cid0 req resp now txId o => exact validate_allInv b cid0 req resp now txId o hall
  | validateBidirectional cid0 req resp now t1 t2 ro so =>
    have h := validate_allInv b cid0 req resp now t2 ro hall
    rw [← validate_bidirectional_fst b cid0 req resp now t1 t2 ro so] at h
    exact h
  | analyzeDrift cid0 w now o => exact analyze_drift_allInv b cid0 w now o hall
  | cleanup now => exact cleanup_allInv b now hall

theorem applyOps_allInv (ops : List BrokerOp) (b : IntentBroker)
    (hall : allInvB b = true) : allInvB (applyOps b ops) = true := by
  induction ops generalizing b with
  | nil => exact hall
  | cons op rest ih => exact ih (applyOp b op) (applyOp_allInv op b hall)

theorem applyOp_allLedger (op : BrokerOp) (b : IntentBroker)
    (hall : allLedgerB b = true) : allLedgerB (applyOp b op) = true := by
  cases op with
  | declareIntent i v => exact hall
  | registerCapability i v => exact hall
  | negotiate ciId scId extra newId now o =>
    exact negotiate_allLedger b ciId scId extra newId now o hall
  | validate cid0 req resp now txId o => exact validate_allLedger b cid0 req resp now txId o hall
  | validateBidirectional cid0 req resp now t1 t2 ro so =>
    have h := validate_allLedger b cid0 req resp now t2 ro hall
    rw [← validate_bidirectional_fst b cid0 req resp now t1 t2 ro so] at h
    exact h
  | analyzeDrift cid0 w now o =>
    show allLedgerB (analyze_intent_drift b cid0 w now o).1 = true
    simp only [allLedgerB]
    rw [analyze_drift_ledgers]
    exact hall
  | cleanup now => exact hall

theorem applyOps_allLedger (ops : List BrokerOp) (b : IntentBroker)
    (hall : allLedgerB b = true) : allLedgerB (applyOps b ops) = true := by
  induction ops generalizing b with
  | nil => exact hall
  | cons op rest ih => exact ih (applyOp b op) (applyOp_allLedger op b hall)

/-! Claim theorems. -/

/-- C1: `record_violation` forces `is_active = false` as soon as the
violation count reaches the fixed threshold of 5, and for any stored contract
already at the threshold (hence inactive), no subsequent sequence of broker
operations (validations, negotiations with fresh contract ids, drift
analyses, sweeps) decreases its violation count or reactivates it. -/
theorem C1_violation_threshold_permanent :
    (∀ c : IntentContract, 5 ≤ (IntentContract.record_violation c).violation_count →
      (IntentContract.record_violation c).is_active = false) ∧
    (∀ (b : IntentBroker) (cid : String) (c : IntentContract) (ops : List BrokerOp),
      opsFresh b ops = true →
      assocGet b.active_contracts cid = some c →
      5 ≤ c.violation_count →
      c.is_active = false →
      ∃ c', assocGet (applyOps b ops).active_contracts cid = some c' ∧
        c'.is_active = false ∧ c.violation_count ≤ c'.violation_count) := by
  constructor
  · intro c h
    simp only [IntentContract.record_violation] at h ⊢
    split at h
    next hcond => rw [if_pos hcond]
    next hcond => exact absurd h hcond
  · intro b cid c ops hf hget h5 hact
    obtain ⟨c', hget', hstep⟩ := applyOps_step ops b hf hget
    exact ⟨c', hget', hstep.2.1 hact, hstep.1⟩

/-- Witness for C1 at a concrete broker, threshold contract and operation
sequence exercising every kind of operation. -/
theorem C1_witness :
    (IntentContract.record_violation { contractA with violation_count := 4 }).is_active
        = false ∧
    (∃ c', assocGet (applyOps brokerV5 opsC1).active_contracts "c1" = some c' ∧
      c'.is_active = false ∧ contractV5.violation_count ≤ c'.violation_count) :=
  ⟨C1_violation_threshold_permanent.1 { contractA with violation_count := 4 } (by decide),
   C1_violation_threshold_permanent.2 brokerV5 "c1" contractV5 opsC1
     (by decide) (by decide) (by decide) (by decide)⟩

/-- C2: validating against a stored contract whose expiry has passed always
returns an `invalid` verdict with suggested action "deny", does not depend on
the analyzer oracle (no analyzer call is made), and leaves the stored
contract with `is_active = false`, whatever its prior state. -/
theorem C2_expired_validation_denies (b : IntentBroker) (cid : String)
    (c : IntentContract) (req : ReqData) (resp : Option ReqData) (now : Int)
    (txId : String) (o o2 : Except String IntentTransactionValidation)
    (hget : assocGet b.active_contracts cid = some c)
    (hexp : c.is_expired now = true) :
    (validate_transaction b cid req resp now txId o).2.validation_result
        = IntentValidationResult.invalid ∧
    (validate_transaction b cid req resp now txId o).2.suggested_action = "deny" ∧
    validate_transaction b cid req resp now txId o2
      = validate_transaction b cid req resp now txId o ∧
    ∃ c', assocGet (validate_transaction b cid req resp now txId o).1.active_contracts cid
            = some c' ∧ c'.is_active = false := by
  unfold validate_transaction
  rw [hget]
  dsimp only
  by_cases hact : c.is_active = false
  · simp only [if_pos hact]
    exact ⟨by trivial, by trivial, by trivial, c, hget, hact⟩
  · simp only [if_neg hact, if_pos hexp]
    exact ⟨by trivial, by trivial, by trivial, { c with is_active := false },
           assocGet_put_self _ _ _, rfl⟩

/-- Witness for C2: an expired-but-still-flagged-active contract at time 100. -/
theorem C2_witness :
    (validate_transaction brokerA "c1" reqA none 100 "t1"
        (Except.error "unused")).2.validation_result = IntentValidationResult.invalid ∧
    (validate_transaction brokerA "c1" reqA none 100 "t1"
        (Except.error "unused")).2.suggested_action = "deny" ∧
    validate_transaction brokerA "c1" reqA none 100 "t1" (Except.ok validVerdictR)
      = validate_transaction brokerA "c1" reqA none 100 "t1" (Except.error "unused") ∧
    ∃ c', assocGet (validate_transaction brokerA "c1" reqA none 100 "t1"
            (Except.error "unused")).1.active_contracts "c1"
        = some c' ∧ c'.is_active = false :=
  C2_expired_validation_denies brokerA "c1" contractA reqA none 100 "t1"
    (Except.error "unused") (Except.ok validVerdictR) (by decide) (by decide)

/-- C5: when the request-path verdict is not `valid`,
`validate_bidirectional_transaction` returns exactly the request-path result
(broker state and verdict) and is independent of the response-protection
oracle, i.e. the client-protection check is never invoked. -/
theorem C5_bidirectional_fail_fast (b : IntentBroker) (cid : String) (req : ReqData)
    (resp : Option ReqData) (now : Int) (t1 t2 : String)
    (ro : Except String IntentTransactionValidation)
    (so so2 : Except String ServerResponseValidation)
    (hinv : (validate_transaction b cid req resp now t2 ro).2.validation_result
              ≠ IntentValidationResult.valid) :
    validate_bidirectional_transaction b cid req resp now t1 t2 ro so
        = validate_transaction b cid req resp now t2 ro ∧
    validate_bidirectional_transaction b cid req resp now t1 t2 ro so
        = validate_bidirectional_transaction b cid req resp now t1 t2 ro so2 := by
  have h : ∀ so' : Except String ServerResponseValidation,
      validate_bidirectional_transaction b cid req resp now t1 t2 ro so'
        = validate_transaction b cid req resp now t2 ro := by
    intro so'
    simp only [validate_bidirectional_transaction]
    rw [if_pos hinv]
  exact ⟨h so, (h so).trans (h so2).symm⟩

/-- Witness for C5: an invalid request verdict with two different response
oracles. -/
theorem C5_witness :
    validate_bidirectional_transaction brokerA "c1" reqA (some respA) 10 "t1" "t2"
        (Except.ok invalidVerdictA) (Except.ok respBad)
      = validate_transaction brokerA "c1" reqA (some respA) 10 "t2"
          (Except.ok invalidVerdictA) ∧
    validate_bidirectional_transaction brokerA "c1" reqA (some respA) 10 "t1" "t2"
        (Except.ok invalidVerdictA) (Except.ok respBad)
      = validate_bidirectional_transaction brokerA "c1" reqA (some respA) 10 "t1" "t2"
          (Except.ok invalidVerdictA) (Except.error "response oracle down") :=
  C5_bidirectional_fail_fast brokerA "c1" reqA (some respA) 10 "t1" "t2"
    (Except.ok invalidVerdictA) (Except.ok respBad)
    (Except.error "response oracle down") (by decide)

/-- C7: for every stored contract,
`successful_transactions + failed_transactions = transaction_count` is
preserved by any sequence of broker operations (validations with analyzer
successes and failures included). -/
theorem C7_counter_invariant (b : IntentBroker) (ops : List BrokerOp)
    (hall : allInvB b = true) : allInvB (applyOps b ops) = true :=
  applyOps_allInv ops b hall

/-- Witness for C7 at a concrete broker and mixed operation sequence. -/
theorem C7_witness : allInvB (applyOps brokerA opsC1) = true :=
  C7_counter_invariant brokerA opsC1 (by decide)

theorem full_ledger_append (l : List TransactionRecord) (r : TransactionRecord)
    (hlen : l.length = 100) :
    (if 100 < (l ++ [r]).length then (l ++ [r]).drop ((l ++ [r]).length - 100)
     else l ++ [r]) = l.drop 1 ++ [r] := by
  have hl : (l ++ [r]).length = 101 := by simp [hlen]
  have hcond : 100 < (l ++ [r]).length := by omega
  rw [if_pos hcond, hl]
  have h1 : (101 : Nat) - 100 = 1 := by norm_num
  rw [h1]
  exact List.drop_append_of_le_length (by omega)

/-- C8: every per-contract ledger holds at most 100 records after any
sequence of broker operations (given it did initially), and inserting into a
ledger already holding exactly 100 records drops the oldest record and
appends the new one at the tail (FIFO, insertion order of the survivors
preserved). -/
theorem C8_ledger_bounded_fifo :
    (∀ (b : IntentBroker) (ops : List BrokerOp), allLedgerB b = true →
       allLedgerB (applyOps b ops) = true) ∧
    (∀ (b : IntentBroker) (cid : String) (c : IntentContract)
       (l : List TransactionRecord) (req : ReqData) (resp : Option ReqData)
       (now : Int) (txId : String) (v : IntentTransactionValidation),
       assocGet b.active_contracts cid = some c →
       c.is_active = true →
       c.is_expired now = false →
       assocGet b.contract_transactions cid = some l →
       l.length = 100 →
       assocGet (validate_transaction b cid req resp now txId
           (Except.ok v)).1.contract_transactions cid
         = some (l.drop 1 ++ [{ transaction_id := txId
                                timestamp := now
                                request := req
                                response := resp
                                validation_result := v.validation_result
                                intent_alignment_score := v.intent_alignment_score }])) := by
  constructor
  · exact fun b ops hall => applyOps_allLedger ops b hall
  · intro b cid c l req resp now txId v hget hact hexp hled hlen
    have hact' : ¬(c.is_active = false) := by simp [hact]
    have hexp' : ¬(c.is_expired now = true) := by simp [hexp]
    unfold validate_transaction
    rw [hget]
    dsimp only
    rw [if_neg hact', if_neg hexp']
    dsimp only
    rw [hled]
    dsimp only [Option.getD]
    rw [assocGet_put_self]
    rw [full_ledger_append l _ hlen]

/-- Witness for C8: a broker with a full 100-record ledger plus the general
bound at a mixed operation sequence. -/
theorem C8_witness :
    allLedgerB (applyOps brokerFull opsC1) = true ∧
    assocGet (validate_transaction brokerFull "c1" reqA none 10 "t1"
        (Except.ok validVerdictR)).1.contract_transactions "c1"
      = some (ledger100.drop 1 ++ [{ transaction_id := "t1"
                                     timestamp := 10
                                     request := reqA
                                     response := none
                                     validation_result := validVerdictR.validation_result
                                     intent_alignment_score :=
                                       validVerdictR.intent_alignment_score }]) :=
  ⟨C8_ledger_bounded_fifo.1 brokerFull opsC1 (by decide),
   C8_ledger_bounded_fifo.2 brokerFull "c1" contractA ledger100 reqA none 10 "t1"
     validVerdictR (by decide) (by decide) (by decide) (by decide) (by decide)⟩

/-- C3 counterexample: for an active, non-expired contract with an empty
ledger, an analyzer failure inside `validate_transaction` records the failed
transaction and the violation on the contract but appends no
`TransactionRecord` — the ledger stays empty, contradicting the claim that
the failure path performs the same ledger recording as a normal invalid
transaction. -/
theorem C3_counterexample :
    assocGet (validate_transaction brokerA "c1" reqA none 10 "t1"
        (Except.error "analyzer down")).1.contract_transactions "c1" = some [] ∧
    (assocGet (validate_transaction brokerA "c1" reqA none 10 "t1"
        (Except.error "analyzer down")).1.active_contracts "c1").map
      (fun c => (c.transaction_count, c.failed_transactions, c.violation_count))
      = some (1, 1, 1) := by decide

/-- C3 amended: when the analyzer raises for an active, non-expired contract,
`validate_transaction` increments `transaction_count`, `failed_transactions`
and `violation_count`, returns (rather than raises) an `invalid` deny verdict
whose reason embeds the failure cause, and leaves the ledger untouched — no
`TransactionRecord` is appended on this path. -/
theorem C3_analyzer_failure_recording (b : IntentBroker) (cid : String)
    (c : IntentContract) (req : ReqData) (resp : Option ReqData) (now : Int)
    (txId : String) (e : String)
    (hget : assocGet b.active_contracts cid = some c)
    (hact : c.is_active = true) (hexp : c.is_expired now = false) :
    ((validate_transaction b cid req resp now txId (Except.error e)).2.validation_result
        = IntentValidationResult.invalid ∧
     (validate_transaction b cid req resp now txId (Except.error e)).2.validation_reasons
        = ["Validation failed: " ++ e] ∧
     (validate_transaction b cid req resp now txId (Except.error e)).2.suggested_action
        = "deny") ∧
    (∃ c', assocGet (validate_transaction b cid req resp now txId
            (Except.error e)).1.active_contracts cid = some c' ∧
       c'.transaction_count = c.transaction_count + 1 ∧
       c'.failed_transactions = c.failed_transactions + 1 ∧
       c'.successful_transactions = c.successful_transactions ∧
       c'.violation_count = c.violation_count + 1) ∧
    (validate_transaction b cid req resp now txId (Except.error e)).1.contract_transactions
        = b.contract_transactions := by
  have hact' : ¬(c.is_active = false) := by simp [hact]
  have hexp' : ¬(c.is_expired now = true) := by simp [hexp]
  unfold validate_transaction
  rw [hget]
  dsimp only
  rw [if_neg hact', if_neg hexp']
  refine ⟨⟨rfl, rfl, rfl⟩, ⟨_, assocGet_put_self _ _ _, ?_, ?_, ?_, ?_⟩, rfl⟩ <;>
    (simp only [IntentContract.record_violation, IntentContract.record_transaction,
       if_neg Bool.false_ne_true]
     split <;> rfl)

/-- Witness for C3 amended at a concrete broker. -/
theorem C3_witness :
    ((validate_transaction brokerA "c1" reqA none 10 "t1"
        (Except.error "boom")).2.validation_result = IntentValidationResult.invalid ∧
     (validate_transaction brokerA "c1" reqA none 10 "t1"
        (Except.error "boom")).2.validation_reasons = ["Validation failed: " ++ "boom"] ∧
     (validate_transaction brokerA "c1" reqA none 10 "t1"
        (Except.error "boom")).2.suggested_action = "deny") ∧
    (∃ c', assocGet (validate_transaction brokerA "c1" reqA none 10 "t1"
            (Except.error "boom")).1.active_contracts "c1" = some c' ∧
       c'.transaction_count = contractA.transaction_count + 1 ∧
       c'.failed_transactions = contractA.failed_transactions + 1 ∧
       c'.successful_transactions = contractA.successful_transactions ∧
       c'.violation_count = contractA.violation_count + 1) ∧
    (validate_transaction brokerA "c1" reqA none 10 "t1"
        (Except.error "boom")).1.contract_transactions = brokerA.contract_transactions :=
  C3_analyzer_failure_recording brokerA "c1" contractA reqA none 10 "t1" "boom"
    (by decide) (by decide) (by decide)

/-- C4 counterexample: negotiating with unknown handles on a fresh broker
raises the identifying not-found error and creates no contract, yet the
negotiation counters are not all unchanged: `total_negotiations` is
incremented before the lookups. -/
theorem C4_counterexample :
    (negotiate_intent_contract bEmpty "missing-intent" "missing-cap" none "n1" 0
        (Except.error "unused")).2
      = Except.error ("Client intent not found: " ++ "missing-intent") ∧
    (negotiate_intent_contract bEmpty "missing-intent" "missing-cap" none "n1" 0
        (Except.error "unused")).1.active_contracts = [] ∧
    bEmpty.negotiation_stats.total_negotiations = 0 ∧
    (negotiate_intent_contract bEmpty "missing-intent" "missing-cap" none "n1" 0
        (Except.error "unused")).1.negotiation_stats.total_negotiations = 1 :=
  ⟨rfl, rfl, rfl, rfl⟩

/-- C4 amended: negotiating with an unknown client-intent or server-capability
handle fails with a not-found error identifying the missing declaration,
creates no contract, and leaves the contract store, session index, ledger
map and negotiation counters unchanged — except that `total_negotiations` is
incremented, because the source bumps it before resolving the handles. -/
theorem C4_negotiate_not_found (b : IntentBroker) (ciId scId : String)
    (extra : Option (List String)) (newId : String) (now : Int)
    (o : Except String IntentCompatibilityResult)
    (hmiss : assocGet b.client_intents ciId = none
             ∨ assocGet b.server_capabilities scId = none) :
    (assocGet b.client_intents ciId = none →
       (negotiate_intent_contract b ciId scId extra newId now o).2
         = Except.error ("Client intent not found: " ++ ciId)) ∧
    (∀ ci, assocGet b.client_intents ciId = some ci →
       assocGet b.server_capabilities scId = none →
       (negotiate_intent_contract b ciId scId extra newId now o).2
         = Except.error ("Server capability not found: " ++ scId)) ∧
    (negotiate_intent_contract b ciId scId extra newId now o).1.active_contracts
        = b.active_contracts ∧
    (negotiate_intent_contract b ciId scId extra newId now o).1.client_sessions
        = b.client_sessions ∧
    (negotiate_intent_contract b ciId scId extra newId now o).1.contract_transactions
        = b.contract_transactions ∧
    (negotiate_intent_contract b ciId scId extra newId now o).1.negotiation_stats
        = { b.negotiation_stats with
              total_negotiations := b.negotiation_stats.total_negotiations + 1 } := by
  simp only [negotiate_intent_contract]
  cases hci : assocGet b.client_intents ciId with
  | none =>
    refine ⟨fun _ => rfl, ?_, rfl, rfl, rfl, rfl⟩
    intro ci hc _
    exact absurd hc (by simp)
  | some ci =>
    cases hsc : assocGet b.server_capabilities scId with
    | none =>
      refine ⟨?_, fun _ _ _ => rfl, rfl, rfl, rfl, rfl⟩
      intro h
      exact absurd h (by simp)
    | some sc =>
      rcases hmiss with h | h
      · rw [hci] at h
        exact absurd h (by simp)
      · rw [hsc] at h
        exact absurd h (by simp)

/-- Witness for C4 amended on a fresh broker with a missing intent handle. -/
theorem C4_witness :
    ((negotiate_intent_contract bEmpty "x" "y" none "n1" 0 (Except.error "unused")).1.active_contracts
        = bEmpty.active_contracts) ∧
    ((negotiate_intent_contract bEmpty "x" "y" none "n1" 0 (Except.error "unused")).1.negotiation_stats
        = { bEmpty.negotiation_stats with
              total_negotiations := bEmpty.negotiation_stats.total_negotiations + 1 }) :=
  ⟨(C4_negotiate_not_found bEmpty "x" "y" none "n1" 0 (Except.error "unused")
      (Or.inl (by decide))).2.2.1,
   (C4_negotiate_not_found bEmpty "x" "y" none "n1" 0 (Except.error "unused")
      (Or.inl (by decide))).2.2.2.2.2⟩

/-- C6 counterexample: a valid request verdict carrying a pre-existing risk
factor, combined with a non-valid response verdict, yields a bidirectional
verdict that is `suspicious` with the response verdict attached and the
suggested action taken from the response verdict — but the outer risk factors
are not overwritten from the response verdict: the pre-existing factor
survives and two fixed tags are appended. -/
theorem C6_counterexample :
    (validate_bidirectional_transaction brokerA "c1" reqA (some respA) 10 "touter"
        "tinner" (Except.ok validVerdictR) (Except.ok respBad)).2.validation_result
      = IntentValidationResult.suspicious ∧
    (validate_bidirectional_transaction brokerA "c1" reqA (some respA) 10 "touter"
        "tinner" (Except.ok validVerdictR) (Except.ok respBad)).2.suggested_action
      = "sanitize" ∧
    (validate_bidirectional_transaction brokerA "c1" reqA (some respA) 10 "touter"
        "tinner" (Except.ok validVerdictR) (Except.ok respBad)).2.risk_factors
      = ["preexisting_risk", "server_response_violation", "client_protection_triggered"]
      := by decide

/-- C6 amended: when the request check is `valid`, a nonempty response is
present and the response-protection check is not `valid`, the outer verdict
is escalated to `suspicious`, the response verdict is attached as the nested
`client_protection` field, the suggested action is overwritten from the
response verdict, and the two fixed tags `server_response_violation` and
`client_protection_triggered` are appended to the outer verdict's existing
risk factors (which are kept, not overwritten from the response verdict). -/
theorem C6_response_veto (b : IntentBroker) (cid : String) (req : ReqData)
    (r : ReqData) (now : Int) (t1 t2 : String)
    (ro : Except String IntentTransactionValidation)
    (so : Except String ServerResponseValidation)
    (hvalid : (validate_transaction b cid req (some r) now t2 ro).2.validation_result
        = IntentValidationResult.valid)
    (hne : r.isEmpty = false)
    (hresp : (validate_server_response (validate_transaction b cid req (some r) now t2 ro).1
        cid t1 req r now so).validation_result ≠ IntentValidationResult.valid) :
    validate_bidirectional_transaction b cid req (some r) now t1 t2 ro so
      = ((validate_transaction b cid req (some r) now t2 ro).1,
         { (validate_transaction b cid req (some r) now t2 ro).2 with
             validation_result := IntentValidationResult.suspicious
             client_protection := some (validate_server_response
               (validate_transaction b cid req (some r) now t2 ro).1 cid t1 req r now so)
             risk_factors := (validate_transaction b cid req (some r) now t2 ro).2.risk_factors
               ++ ["server_response_violation", "client_protection_triggered"]
             suggested_action := (validate_server_response
               (validate_transaction b cid req (some r) now t2 ro).1
               cid t1 req r now so).suggested_action }) := by
  simp only [validate_bidirectional_transaction]
  rw [if_neg (by simp [hvalid])]
  rw [if_neg (by simp [hne])]
  rw [if_pos hresp]

/-- Witness for C6 amended at a concrete broker, valid request verdict and
sanitize-suggesting response verdict. -/
theorem C6_witness :
    validate_bidirectional_transaction brokerA "c1" reqA (some respA) 10 "t1" "t2"
        (Except.ok validVerdictR) (Except.ok respBad)
      = ((validate_transaction brokerA "c1" reqA (some respA) 10 "t2"
            (Except.ok validVerdictR)).1,
         { (validate_transaction brokerA "c1" reqA (some respA) 10 "t2"
              (Except.ok validVerdictR)).2 with
             validation_result := IntentValidationResult.suspicious
             client_protection := some (validate_server_response
               (validate_transaction brokerA "c1" reqA (some respA) 10 "t2"
                 (Except.ok validVerdictR)).1 "c1" "t1" reqA respA 10 (Except.ok respBad))
             risk_factors := (validate_transaction brokerA "c1" reqA (some respA) 10 "t2"
               (Except.ok validVerdictR)).2.risk_factors
               ++ ["server_response_violation", "client_protection_triggered"]
             suggested_action := (validate_server_response
               (validate_transaction brokerA "c1" reqA (some respA) 10 "t2"
                 (Except.ok validVerdictR)).1 "c1" "t1" reqA respA 10
                 (Except.ok respBad)).suggested_action }) :=
  C6_response_veto brokerA "c1" reqA respA 10 "t1" "t2"
    (Except.ok validVerdictR) (Except.ok respBad) (by decide) (by decide) (by decide)

/-- C9 counterexample: with one ledger record inside the trailing window, a
drift oracle result whose severity is "high" but whose `drift_detected` flag
is false is returned unchanged and leaves the contract active — high
severity alone does not deactivate the contract. -/
theorem C9_counterexample :
    (analyze_intent_drift brokerDrift "c1" 24 10 (Except.ok driftHighNoDetect)).2
      = some driftHighNoDetect ∧
    (assocGet (analyze_intent_drift brokerDrift "c1" 24 10
        (Except.ok driftHighNoDetect)).1.active_contracts "c1").map
      (fun c => c.is_active) = some true := by decide

/-- C9 amended: for a stored contract with at least one ledger record inside
the trailing window, a drift result with `drift_detected = true` and severity
"high" immediately deactivates the contract, and the deactivation is
permanent: no subsequent operation sequence (with fresh negotiation ids)
reactivates it.  A result without that combination — in particular any
medium-severity result — leaves the broker state unchanged, so the contract
stays active. -/
theorem C9_drift_deactivation (b : IntentBroker) (cid : String) (c : IntentContract)
    (w now : Int) (d : DriftResult)
    (hget : assocGet b.active_contracts cid = some c)
    (hrec : (List.filter (fun tx => decide (now - 60 * w < tx.timestamp))
        ((assocGet b.contract_transactions cid).getD [])).isEmpty = false) :
    (d.drift_detected = true → d.drift_severity = "high" →
       (∃ c', assocGet (analyze_intent_drift b cid w now
             (Except.ok d)).1.active_contracts cid = some c' ∧ c'.is_active = false) ∧
       (∀ ops, opsFresh (analyze_intent_drift b cid w now (Except.ok d)).1 ops = true →
          ∃ c'', assocGet (applyOps (analyze_intent_drift b cid w now
                (Except.ok d)).1 ops).active_contracts cid = some c''
            ∧ c''.is_active = false)) ∧
    (d.drift_detected = false ∨ d.drift_severity ≠ "high" →
       (analyze_intent_drift b cid w now (Except.ok d)).1 = b) := by
  have hrec' : ¬((List.filter (fun tx => decide (now - 60 * w < tx.timestamp))
      ((assocGet b.contract_transactions cid).getD [])).isEmpty = true) := by
    simp [hrec]
  simp only [analyze_intent_drift]
  rw [hget]
  dsimp only
  rw [if_neg hrec']
  constructor
  · intro hd hsev
    rw [if_pos hd, if_pos hsev]
    constructor
    · exact ⟨{ c with is_active := false }, assocGet_put_self _ _ _, rfl⟩
    · intro ops hops
      obtain ⟨c'', hget'', hstep⟩ := applyOps_step ops _ hops (assocGet_put_self _ _ _)
      exact ⟨c'', hget'', hstep.2.1 rfl⟩
  · intro h
    rcases h with hd | hsev
    · rw [if_neg (by simp [hd])]
    · by_cases hd : d.drift_detected = true
      · rw [if_pos hd, if_neg hsev]
      · rw [if_neg hd]

/-- Witness for C9 amended: a high-severity detected drift deactivates the
contract permanently (also across a subsequent sweep), while a
medium-severity result leaves the broker unchanged. -/
theorem C9_witness :
    (∃ c'', assocGet (applyOps (analyze_intent_drift brokerDrift "c1" 24 10
          (Except.ok driftHigh)).1 [BrokerOp.cleanup 70]).active_contracts "c1"
        = some c'' ∧ c''.is_active = false) ∧
    (analyze_intent_drift brokerDrift "c1" 24 10 (Except.ok driftMedium)).1
      = brokerDrift :=
  ⟨((C9_drift_deactivation brokerDrift "c1" contractA 24 10 driftHigh
      (by decide) (by decide)).1 (by decide) (by decide)).2
      [BrokerOp.cleanup 70] (by decide),
   (C9_drift_deactivation brokerDrift "c1" contractA 24 10 driftMedium
      (by decide) (by decide)).2 (Or.inr (by decide))⟩

/-- C10 counterexample: a session entry pointing at a contract that lazy
expiry already deactivated survives the sweep (the sweeper only removes
entries for contracts it deactivates itself in this pass), so after the pass
the session index still maps the client to an inactive, expired contract. -/
theorem C10_counterexample :
    (cleanup_expired_contracts brokerStaleSession 100).1.client_sessions
      = [("clientA", "c1")] ∧
    (assocGet (cleanup_expired_contracts brokerStaleSession 100).1.active_contracts
        "c1").map (fun c => (c.is_active, c.is_expired 100)) = some (false, true)
      := by decide

/-- C10 amended: after a sweep, no session entry points at a contract that
was active and expired at the start of the pass (those are deactivated and
their session entries dropped), and the active-contract counter is recomputed
from scratch over the stored contracts; session entries whose contract was
already inactive before the pass (deactivated earlier by lazy expiry or the
violation threshold) are kept. -/
theorem C10_sweep_sessions :
    (∀ (b : IntentBroker) (now : Int) (client cid : String) (c : IntentContract),
       (cid, c) ∈ b.active_contracts → c.is_active = true → c.is_expired now = true →
       (client, cid) ∉ (cleanup_expired_contracts b now).1.client_sessions) ∧
    (∀ (b : IntentBroker) (now : Int) (client cid : String),
       (client, cid) ∈ b.client_sessions →
       (b.active_contracts.all (fun p => !(decide (p.1 = cid) && p.2.is_expired now
           && p.2.is_active))) = true →
       (client, cid) ∈ (cleanup_expired_contracts b now).1.client_sessions) ∧
    (∀ (b : IntentBroker) (now : Int),
       (cleanup_expired_contracts b now).1.negotiation_stats.active_contracts
         = ((cleanup_expired_contracts b now).1.active_contracts.filter
             (fun p => p.2.is_active)).length) := by
  refine ⟨?_, ?_, ?_⟩
  · intro b now client cid c hc hact hexp hmem
    simp only [cleanup_expired_contracts] at hmem
    rw [List.mem_filter] at hmem
    have hcidmem : cid ∈ (b.active_contracts.filter
        (fun p => p.2.is_expired now && p.2.is_active)).map Prod.fst :=
      List.mem_map.mpr ⟨(cid, c), List.mem_filter.mpr ⟨hc, by simp [hact, hexp]⟩, rfl⟩
    have hpred := hmem.2
    simp only [Bool.not_eq_true', List.any_eq_false, decide_eq_false_iff_not] at hpred
    exact hpred cid hcidmem (by simp)
  · intro b now client cid hmem hall
    simp only [cleanup_expired_contracts]
    rw [List.mem_filter]
    refine ⟨hmem, ?_⟩
    simp only [Bool.not_eq_true', List.any_eq_false, decide_eq_false_iff_not]
    intro x hx
    rcases List.mem_map.mp hx with ⟨p, hp, rfl⟩
    rcases List.mem_filter.mp hp with ⟨hpmem, hpcond⟩
    intro hxeq
    have hentry := List.all_eq_true.mp hall p hpmem
    rw [Bool.not_eq_true'] at hentry
    have hsplit : p.2.is_expired now = true ∧ p.2.is_active = true := by
      simpa using hpcond
    simp [hxeq, hsplit.1, hsplit.2] at hentry
  · intro b now
    rfl

/-- Witness for C10 amended: the sweep drops the session of an
active-and-expired contract, keeps the session of an already-inactive one,
and recomputes the active counter. -/
theorem C10_witness :
    ("clientA", "c1") ∉ (cleanup_expired_contracts brokerA 100).1.client_sessions ∧
    ("clientA", "c1") ∈ (cleanup_expired_contracts brokerStaleSession 100).1.client_sessions ∧
    (cleanup_expired_contracts brokerA 100).1.negotiation_stats.active_contracts
      = ((cleanup_expired_contracts brokerA 100).1.active_contracts.filter
          (fun p => p.2.is_active)).length :=
  ⟨C10_sweep_sessions.1 brokerA 100 "clientA" "c1" contractA (by decide) (by decide)
     (by decide),
   C10_sweep_sessions.2.1 brokerStaleSession 100 "clientA" "c1" (by decide) (by decide),
   C10_sweep_sessions.2.2 brokerA 100⟩
